import Mathlib

/-!
Verification of `revise` (src/revise/make_dataset.py, src/revise/utils.py).

The Python code is shallowly embedded:
* Python strings are Lean `String`; `s.split(sep)` is embedded by an
  executable splitter over `List Char` mirroring CPython's semantics for a
  non-empty separator (greedy left-to-right, non-overlapping).
* A Hugging Face `Dataset` of scored records is a list of records plus its
  list of column names; a generic column-oriented dataset is an association
  list from column name to column values.
* `raise ValueError(msg)` is `Except.error msg`; a function that may raise
  returns `Except String _`.
* JSON values are an inductive `Json`; `json.dumps(-, sort_keys=True)` is
  serialization after recursively sorting every object's members by key;
  `hashlib.sha256(...).hexdigest()` is an executable SHA-256 over byte lists
  (`Nat` bytes), applied to the UTF-8 encoding of the serialized string.
* The filesystem cache is a map from path to optional file content; a cache
  file's content is the list of its lines, each line being `some record`
  when `json.loads` succeeds on it and `none` when it is malformed
  (JSON round-tripping of a record written by the pipeline itself is
  faithful, so a file written by the pipeline holds `some` lines).
-/

/-- One chat message dict `{"role": ..., "content": ...}`. -/
structure Message where
  role : String
  content : String
deriving DecidableEq, Repr

/-- One scored record produced by `generate_and_evaluate`: the keys
`question_key`, `answer_key`, `prediction_key`, `"is_correct"`. -/
structure ScoredRecord where
  question : String
  answer : String
  prediction : String
  is_correct : Bool
deriving DecidableEq, Repr

/-- One preference pair emitted by `make_dataset`.  Policy-derived pairs have
no `is_gt` key (`none`); ground-truth pairs carry `is_gt = some true`. -/
structure PrefPair where
  question : String
  answer : String
  prediction : String
  is_correct : Bool
  is_verifier : Bool
  is_gt : Option Bool
  chosen : List Message
  rejected : List Message
deriving DecidableEq, Repr

/-- The scored dataset consumed by `make_dataset`: its column names (checked
against the configured keys) and its rows. -/
structure MDataset where
  column_names : List String
  rows : List ScoredRecord
deriving Repr

/-- Fuel-driven core of Python `str.split(sep)` for a non-empty `sep`,
over character lists: greedy left-to-right scan for non-overlapping
occurrences of `sep`.  `fuel ≥ s.length` makes the fuel guard unreachable. -/
def pySplitGo (sep : List Char) : Nat → List Char → List (List Char)
  | _, [] => [[]]
  | 0, s => [s]
  | fuel + 1, c :: rest =>
    if sep.isPrefixOf (c :: rest) then
      [] :: pySplitGo sep fuel ((c :: rest).drop sep.length)
    else
      match pySplitGo sep fuel rest with
      | [] => [c :: rest]
      | t :: ts => (c :: t) :: ts

/-- Python `s.split(sep)` for a non-empty separator (the only way the code
calls it); for the (Python-invalid) empty separator we return `[s]`, which
keeps every downstream statement well-defined. -/
def py_split (sep s : String) : List String :=
  match sep.data with
  | [] => [s]
  | c :: cs => (pySplitGo (c :: cs) s.data.length s.data).map (fun l => ⟨l⟩)

/-- Python `s.split(sep)[-1]`: the last chunk of the split (the split is
never empty, so the default is never used). -/
def py_split_last (sep s : String) : String :=
  (py_split sep s).getLastD ""

/-- The policy-derived pair built from one scored record
(`make_dataset.py` lines 143-175). -/
def policy_pair (prepare_chat_messages_fn : String → List Message)
    (is_verifier : Bool) (rethink_token : String)
    (sample : ScoredRecord) : PrefPair :=
  let question := sample.question
  let gt_answer := sample.answer
  let prediction := py_split_last rethink_token sample.prediction
  let is_correct := sample.is_correct
  let chosen_message :=
    if is_correct then prediction
    else if is_verifier then prediction ++ rethink_token
    else prediction ++ rethink_token ++ gt_answer
  let rejected_message :=
    if is_correct then prediction ++ rethink_token else prediction
  let user_messages := prepare_chat_messages_fn question
  { question := question
    answer := gt_answer
    prediction := prediction
    is_correct := is_correct
    is_verifier := is_verifier
    is_gt := none
    chosen := user_messages ++ [⟨"assistant", chosen_message⟩]
    rejected := user_messages ++ [⟨"assistant", rejected_message⟩] }

/-- The ground-truth-augmentation pair built from one scored record
(`make_dataset.py` lines 179-203, executed when `use_gt` is true). -/
def gt_pair (prepare_chat_messages_fn : String → List Message)
    (is_verifier : Bool) (rethink_token : String)
    (sample : ScoredRecord) : PrefPair :=
  let question := sample.question
  let gt_answer := sample.answer
  let chosen_message := gt_answer
  let rejected_message := gt_answer ++ rethink_token
  let user_messages := prepare_chat_messages_fn question
  { question := question
    answer := gt_answer
    prediction := gt_answer
    is_correct := true
    is_verifier := is_verifier
    is_gt := some true
    chosen := user_messages ++ [⟨"assistant", chosen_message⟩]
    rejected := user_messages ++ [⟨"assistant", rejected_message⟩] }

/-- Embedding of `make_dataset` (`make_dataset.py` lines 119-206): column
checks, then one policy pair per row, then — when `use_gt` — one
ground-truth pair per row. -/
def make_dataset (dataset : MDataset)
    (question_key answer_key prediction_key : String)
    (prepare_chat_messages_fn : String → List Message)
    (is_verifier : Bool) (use_gt : Bool) (rethink_token : String) :
    Except String (List PrefPair) :=
  if question_key ∉ dataset.column_names then
    .error ("Dataset must contain a '" ++ question_key ++ "' column.")
  else if answer_key ∉ dataset.column_names then
    .error ("Dataset must contain a '" ++ answer_key ++ "' column.")
  else if prediction_key ∉ dataset.column_names then
    .error ("Dataset must contain a '" ++ prediction_key ++ "' column.")
  else if "is_correct" ∉ dataset.column_names then
    .error "Dataset must contain a 'is_correct' column."
  else
    .ok
      (dataset.rows.map
          (policy_pair prepare_chat_messages_fn is_verifier rethink_token)
        ++
        (if use_gt then
          dataset.rows.map
            (gt_pair prepare_chat_messages_fn is_verifier rethink_token)
        else []))

/-- A JSON-serializable Python value.  A non-integer number (float) is
embedded by its decimal serialization (`Json.num`). -/
inductive Json where
  | null : Json
  | bool : Bool → Json
  | int : Int → Json
  | num : String → Json
  | str : String → Json
  | arr : List Json → Json
  | obj : List (String × Json) → Json

/-- Key order used by `json.dumps(..., sort_keys=True)`: lexicographic on
the member's key. -/
def keyLe (a b : String × Json) : Prop := a.1 ≤ b.1

instance : DecidableRel keyLe := fun a b => by
  unfold keyLe; infer_instance

mutual
/-- Recursively sort every object's member list by key — the canonical form
`json.dumps(..., sort_keys=True)` serializes. -/
def sortJson : Json → Json
  | .obj kvs => .obj (List.insertionSort keyLe (sortKvList kvs))
  | .arr xs => .arr (sortJsonList xs)
  | j => j

def sortJsonList : List Json → List Json
  | [] => []
  | x :: xs => sortJson x :: sortJsonList xs

def sortKvList : List (String × Json) → List (String × Json)
  | [] => []
  | (k, v) :: kvs => (k, sortJson v) :: sortKvList kvs
end

/-- Hex digits of `n < 16`. -/
def hexDigit (n : Nat) : Char :=
  if n < 10 then Char.ofNat (48 + n) else Char.ofNat (87 + n)

/-- Four-hex-digit rendering of a code unit, as in JSON `\uXXXX` escapes. -/
def hex4 (n : Nat) : String :=
  ⟨[hexDigit (n / 4096 % 16), hexDigit (n / 256 % 16),
    hexDigit (n / 16 % 16), hexDigit (n % 16)]⟩

/-- CPython `json.dumps` escaping of one character with `ensure_ascii=True`:
everything outside `0x20`-`0x7e` is `\uXXXX`-escaped (surrogate pairs above
the BMP), plus the two mandatory escapes and the short control escapes. -/
def jsonEscapeChar (c : Char) : String :=
  if c = '"' then "\\\""
  else if c = '\\' then "\\\\"
  else if c = '\n' then "\\n"
  else if c = '\r' then "\\r"
  else if c = '\t' then "\\t"
  else if c.toNat = 8 then "\\b"
  else if c.toNat = 12 then "\\f"
  else if 32 ≤ c.toNat ∧ c.toNat ≤ 126 then ⟨[c]⟩
  else if c.toNat < 65536 then "\\u" ++ hex4 c.toNat
  else
    "\\u" ++ hex4 (55296 + (c.toNat - 65536) / 1024)
      ++ "\\u" ++ hex4 (56320 + (c.toNat - 65536) % 1024)

/-- CPython `json.dumps` serialization of a string. -/
def jsonDumpString (s : String) : String :=
  "\"" ++ String.join (s.data.map jsonEscapeChar) ++ "\""

mutual
/-- Serialization of a (pre-sorted) value with `json.dumps`'s default
separators `", "` and `": "`. -/
def jsonRender : Json → String
  | .null => "null"
  | .bool true => "true"
  | .bool false => "false"
  | .int i => toString i
  | .num s => s
  | .str s => jsonDumpString s
  | .arr xs => "[" ++ jsonRenderList xs ++ "]"
  | .obj kvs => "\x7b" ++ jsonRenderMembers kvs ++ "\x7d"

def jsonRenderList : List Json → String
  | [] => ""
  | [x] => jsonRender x
  | x :: y :: xs => jsonRender x ++ ", " ++ jsonRenderList (y :: xs)

def jsonRenderMembers : List (String × Json) → String
  | [] => ""
  | [(k, v)] => jsonDumpString k ++ ": " ++ jsonRender v
  | (k, v) :: kv :: kvs =>
    jsonDumpString k ++ ": " ++ jsonRender v ++ ", "
      ++ jsonRenderMembers (kv :: kvs)
end

/-- Embedding of `json.dumps(params, sort_keys=True)`. -/
def json_dumps_sorted (j : Json) : String :=
  jsonRender (sortJson j)

/-- UTF-8 encoding of one character as a byte list. -/
def utf8Char (c : Char) : List Nat :=
  let n := c.toNat
  if n < 128 then [n]
  else if n < 2048 then [192 + n / 64, 128 + n % 64]
  else if n < 65536 then
    [224 + n / 4096, 128 + n / 64 % 64, 128 + n % 64]
  else
    [240 + n / 262144, 128 + n / 4096 % 64, 128 + n / 64 % 64, 128 + n % 64]

/-- Embedding of `str.encode("utf-8")`: the UTF-8 byte list of a string. -/
def utf8_encode (s : String) : List Nat :=
  s.data.flatMap utf8Char

/-- Right rotation of a 32-bit word held in a `Nat`. -/
def rotr32 (x n : Nat) : Nat :=
  ((x >>> n) ||| (x <<< (32 - n))) % 4294967296

/-- The 64 SHA-256 round constants. -/
def sha256K : List Nat :=
  [1116352408, 1899447441, 3049323471, 3921009573, 961987163,
   1508970993, 2453635748, 2870763221, 3624381080, 310598401,
   607225278, 1426881987, 1925078388, 2162078206, 2614888103,
   3248222580, 3835390401, 4022224774, 264347078, 604807628,
   770255983, 1249150122, 1555081692, 1996064986, 2554220882,
   2821834349, 2952996808, 3210313671, 3336571891, 3584528711,
   113926993, 338241895, 666307205, 773529912, 1294757372,
   1396182291, 1695183700, 1986661051, 2177026350, 2456956037,
   2730485921, 2820302411, 3259730800, 3345764771, 3516065817,
   3600352804, 4094571909, 275423344, 430227734, 506948616,
   659060556, 883997877, 958139571, 1322822218, 1537002063,
   1747873779, 1955562222, 2024104815, 2227730452, 2361852424,
   2428436474, 2756734187, 3204031479, 3329325298]

/-- SHA-256 message padding: append `0x80`, zeros to 56 mod 64, then the
bit length as 8 big-endian bytes. -/
def sha256Pad (msg : List Nat) : List Nat :=
  let len := msg.length
  let zeros := (119 - len % 64) % 64
  msg ++ [128] ++ List.replicate zeros 0
    ++ (List.range 8).map (fun i => (8 * len) >>> (8 * (7 - i)) % 256)

/-- Split a byte list into 64-byte blocks. -/
def sha256Blocks : List Nat → List (List Nat)
  | [] => []
  | b :: bs => (b :: bs).take 64 :: sha256Blocks ((b :: bs).drop 64)
termination_by l => l.length
decreasing_by
  simp only [List.length_drop, List.length_cons]
  omega

/-- Big-endian 32-bit words of a 64-byte block. -/
def sha256Words (block : List Nat) : List Nat :=
  (List.range 16).map (fun i =>
    (block.getD (4 * i) 0) <<< 24 ||| (block.getD (4 * i + 1) 0) <<< 16
      ||| (block.getD (4 * i + 2) 0) <<< 8 ||| block.getD (4 * i + 3) 0)

/-- Extend 16 words to the 64-entry message schedule. -/
def sha256Schedule (w16 : List Nat) : List Nat :=
  (List.range 48).foldl
    (fun w i =>
      let a := w.getD (i + 1) 0
      let b := w.getD (i + 14) 0
      let s0 := (rotr32 a 7) ^^^ (rotr32 a 18) ^^^ (a >>> 3)
      let s1 := (rotr32 b 17) ^^^ (rotr32 b 19) ^^^ (b >>> 10)
      w ++ [(w.getD i 0 + s0 + w.getD (i + 9) 0 + s1) % 4294967296])
    w16

/-- One SHA-256 compression step over the working variables. -/
def sha256Round (kw : Nat × Nat) :
    Nat × Nat × Nat × Nat × Nat × Nat × Nat × Nat →
    Nat × Nat × Nat × Nat × Nat × Nat × Nat × Nat :=
  fun (a, b, c, d, e, f, g, h) =>
    let s1 := (rotr32 e 6) ^^^ (rotr32 e 11) ^^^ (rotr32 e 25)
    let ch := (e &&& f) ^^^ ((4294967295 - e) &&& g)
    let t1 := (h + s1 + ch + kw.1 + kw.2) % 4294967296
    let s0 := (rotr32 a 2) ^^^ (rotr32 a 13) ^^^ (rotr32 a 22)
    let mj := (a &&& b) ^^^ (a &&& c) ^^^ (b &&& c)
    let t2 := (s0 + mj) % 4294967296
    ((t1 + t2) % 4294967296, a, b, c, (d + t1) % 4294967296, e, f, g)

/-- SHA-256 compression of one block into the running hash state. -/
def sha256Compress (state : List Nat) (block : List Nat) : List Nat :=
  let w := sha256Schedule (sha256Words block)
  let init : Nat × Nat × Nat × Nat × Nat × Nat × Nat × Nat :=
    (state.getD 0 0, state.getD 1 0, state.getD 2 0, state.getD 3 0,
     state.getD 4 0, state.getD 5 0, state.getD 6 0, state.getD 7 0)
  let fin := (sha256K.zip w).foldl (fun st kw => sha256Round kw st) init
  match fin with
  | (a, b, c, d, e, f, g, h) =>
    [(state.getD 0 0 + a) % 4294967296, (state.getD 1 0 + b) % 4294967296,
     (state.getD 2 0 + c) % 4294967296, (state.getD 3 0 + d) % 4294967296,
     (state.getD 4 0 + e) % 4294967296, (state.getD 5 0 + f) % 4294967296,
     (state.getD 6 0 + g) % 4294967296, (state.getD 7 0 + h) % 4294967296]

/-- Hexadecimal rendering of a 32-bit word. -/
def hex8 (n : Nat) : String :=
  hex4 (n / 65536) ++ hex4 (n % 65536)

/-- Embedding of `hashlib.sha256(bytes).hexdigest()`. -/
def sha256_hex (msg : List Nat) : String :=
  let init :=
    [1779033703, 3144134277, 1013904242, 2773480762,
   1359893119, 2600822924, 528734635, 1541459225]
  let final := (sha256Blocks (sha256Pad msg)).foldl sha256Compress init
  String.join (final.map hex8)

/-- Embedding of `hash_params` (`utils.py` lines 6-9):
`hashlib.sha256(json.dumps(params, sort_keys=True).encode("utf-8")).hexdigest()`. -/
def hash_params (params : Json) : String :=
  sha256_hex (utf8_encode (json_dumps_sorted params))

/-- A generic (Hugging Face) dataset: an association list from column name
to that column's values. -/
structure GDataset where
  columns : List (String × List String)
deriving Repr

/-- Embedding of `dataset.column_names`. -/
def GDataset.column_names (d : GDataset) : List String :=
  d.columns.map Prod.fst

/-- Embedding of `dataset[key]`: the named column (defaults to `[]`, which
is only reached when the column-presence check already passed). -/
def GDataset.col (d : GDataset) (key : String) : List String :=
  ((d.columns.find? (fun kv => kv.fst = key)).map Prod.snd).getD []

/-- Embedding of `dataset.select(range(n))`: keep the first `n` rows. -/
def GDataset.select (d : GDataset) (n : Nat) : GDataset :=
  ⟨d.columns.map (fun kv => (kv.fst, kv.snd.take n))⟩

/-- Deterministic embedding of Python `str(dataset)` (the HF `Dataset`
repr, a function of features and row count). -/
def dataset_str (d : GDataset) : String :=
  "Dataset(features: " ++ String.intercalate ", " d.column_names
    ++ ", num_rows: "
    ++ toString ((d.columns.map (fun kv => kv.snd.length)).foldr max 0) ++ ")"

/-- The scalar arguments of `generate_and_evaluate`.  The float
hyperparameters (`temperature`, `top_p`) are embedded by their decimal
serialization, which is all the hashed params dict observes of them. -/
structure GenEvalConfig where
  model_path : String
  max_new_tokens : Int
  temperature : String
  num_completions : Int
  top_p : String
  num_examples : Int
  seed : Int
  question_key : String
  answer_key : String
  prediction_key : String
  ignore_cache : Bool

/-- The collaborators of `generate_and_evaluate`: the evaluator (with the
source text `inspect.getsource` reads), the batch prompt builder (likewise),
and the generator (`VllmGenerator(model, gen_params).chat`, a deterministic
function of the configuration it closes over). -/
structure Collaborators where
  evaluator_source : String
  eval_run : List String → List String → List Bool
  prepare_batch_chat_messages_source : String
  prepare_batch_chat_messages_fn : GDataset → List (List Message)
  generator_chat : List (List Message) → List (List String)

/-- The `params` dict built at `make_dataset.py` lines 35-51. -/
def geParams (cfg : GenEvalConfig) (dataset : GDataset)
    (collab : Collaborators) : Json :=
  Json.obj
    [("model_path", .str cfg.model_path),
     ("dataset", .str (dataset_str dataset)),
     ("evaluator_source", .str collab.evaluator_source),
     ("prepare_batch_chat_messages_source",
       .str collab.prepare_batch_chat_messages_source),
     ("max_new_tokens", .int cfg.max_new_tokens),
     ("temperature", .num cfg.temperature),
     ("num_completions", .int cfg.num_completions),
     ("top_p", .num cfg.top_p),
     ("num_examples", .int cfg.num_examples),
     ("seed", .int cfg.seed),
     ("question_key", .str cfg.question_key),
     ("answer_key", .str cfg.answer_key),
     ("prediction_key", .str cfg.prediction_key)]

/-- The fingerprint-derived cache path `./.cache/{hashed}.jsonl`. -/
def cache_path (cfg : GenEvalConfig) (dataset : GDataset)
    (collab : Collaborators) : String :=
  "./.cache/" ++ hash_params (geParams cfg dataset collab) ++ ".jsonl"

/-- The filesystem visible to the pipeline: cache files by path (a file is
the list of its lines, each line `some record` if it deserializes and
`none` if malformed), and whether opening a file for writing fails. -/
structure FileSystem where
  cache_files : String → Option (List (Option ScoredRecord))
  write_fails : Bool

/-- Deserializing every line of a cache file; the first malformed line
makes the whole read raise. -/
def sequenceOptions : List (Option ScoredRecord) → Option (List ScoredRecord)
  | [] => some []
  | none :: _ => none
  | some r :: rest => (sequenceOptions rest).map (fun l => r :: l)

/-- Outcome of one `generate_and_evaluate` call: the returned dataset or
the raised exception, the filesystem afterwards, and how many times each
collaborator was invoked. -/
structure GenEvalOutcome where
  result : Except String (List ScoredRecord)
  fs : FileSystem
  generator_calls : Nat
  evaluator_calls : Nat

/-- The dataset after the optional `select(range(num_examples))`
(`make_dataset.py` lines 66-67). -/
def ge_effective_dataset (cfg : GenEvalConfig) (dataset : GDataset) :
    GDataset :=
  if cfg.num_examples > 0 then dataset.select cfg.num_examples.toNat
  else dataset

/-- The local `predictions = generator.chat(batch_chat_messages)`
(`make_dataset.py` lines 70, 84). -/
def ge_predictions (cfg : GenEvalConfig) (dataset : GDataset)
    (collab : Collaborators) : List (List String) :=
  collab.generator_chat
    (collab.prepare_batch_chat_messages_fn (ge_effective_dataset cfg dataset))

/-- The triples `zip(questions, gt_answers, predictions)` iterated by the
evaluation loop (`make_dataset.py` lines 89-91). -/
def ge_zipped (cfg : GenEvalConfig) (dataset : GDataset)
    (collab : Collaborators) : List (String × String × List String) :=
  ((ge_effective_dataset cfg dataset).col cfg.question_key).zip
    (((ge_effective_dataset cfg dataset).col cfg.answer_key).zip
      (ge_predictions cfg dataset collab))

/-- The local `score_list = evaluator.run(answers=[gt]*n, predictions=ps,
return_results=True)["score_list"]` (`make_dataset.py` lines 92-98). -/
def ge_score_list (collab : Collaborators) (gt_answer : String)
    (prediction_set : List String) : List Bool :=
  collab.eval_run
    (List.replicate prediction_set.length gt_answer) prediction_set

/-- The local `new_dataset` built by the nested evaluation loop
(`make_dataset.py` lines 87-108). -/
def ge_new_dataset (cfg : GenEvalConfig) (dataset : GDataset)
    (collab : Collaborators) : List ScoredRecord :=
  (ge_zipped cfg dataset collab).flatMap (fun qgp =>
    (qgp.2.2.zip (ge_score_list collab qgp.2.1 qgp.2.2)).map
      (fun pc => ⟨qgp.1, qgp.2.1, pc.1, pc.2⟩))

/-- Embedding of `generate_and_evaluate` (`make_dataset.py` lines 19-116):
fingerprint, cache probe, column checks, optional `select`, generation,
per-example evaluation with `zip` flattening, cache write, return. -/
def generate_and_evaluate (cfg : GenEvalConfig) (dataset : GDataset)
    (collab : Collaborators) (fs : FileSystem) : GenEvalOutcome :=
  match fs.cache_files (cache_path cfg dataset collab), cfg.ignore_cache with
  | some lines, false =>
    match sequenceOptions lines with
    | some records => ⟨.ok records, fs, 0, 0⟩
    | none => ⟨.error "json.decoder.JSONDecodeError", fs, 0, 0⟩
  | _, _ =>
    if cfg.question_key ∉ dataset.column_names then
      ⟨.error ("Dataset must contain a '" ++ cfg.question_key ++ "' column."),
       fs, 0, 0⟩
    else if cfg.answer_key ∉ dataset.column_names then
      ⟨.error ("Dataset must contain a '" ++ cfg.answer_key ++ "' column."),
       fs, 0, 0⟩
    else if fs.write_fails then
      ⟨.error "OSError", fs, 1, (ge_zipped cfg dataset collab).length⟩
    else
      ⟨.ok (ge_new_dataset cfg dataset collab),
       ⟨fun p => if p = cache_path cfg dataset collab
            then some ((ge_new_dataset cfg dataset collab).map some)
            else fs.cache_files p,
        fs.write_fails⟩,
       1, (ge_zipped cfg dataset collab).length⟩

/-! ### Properties of the `str.split` embedding -/

theorem pySplitGo_ne_nil (sep : List Char) (fuel : Nat) (s : List Char) :
    pySplitGo sep fuel s ≠ [] := by
  induction fuel generalizing s with
  | zero => cases s <;> simp [pySplitGo]
  | succ n ih =>
    cases s with
    | nil => simp [pySplitGo]
    | cons c rest =>
      simp only [pySplitGo]
      split
      · simp
      · split <;> simp_all

theorem pySplitGo_head_of_split (sep : List Char) (fuel : Nat)
    (s : List Char) (hfuel : s.length ≤ fuel) :
    ∃ t ts, pySplitGo sep fuel s = t :: ts ∧ t <+: s := by
  induction fuel generalizing s with
  | zero =>
    have : s = [] := List.length_eq_zero.mp (Nat.le_zero.mp hfuel)
    subst this
    exact ⟨[], [], by simp [pySplitGo], List.nil_prefix⟩
  | succ n ih =>
    cases s with
    | nil => exact ⟨[], [], by simp [pySplitGo], List.nil_prefix⟩
    | cons c rest =>
      simp only [pySplitGo]
      split
      · exact ⟨[], _, rfl, List.nil_prefix⟩
      · have hr : rest.length ≤ n := by
          simpa using Nat.lt_succ_iff.mp (Nat.lt_of_lt_of_le
            (by simp [Nat.lt_succ_iff]) hfuel)
        obtain ⟨t, ts, heq, hpre⟩ := ih rest hr
        rw [heq]
        obtain ⟨u, hu⟩ := hpre
        exact ⟨c :: t, ts, rfl, ⟨u, by simp [← hu]⟩⟩

theorem pySplitGo_chunk_not_infix (sep : List Char) (hsep : sep ≠ [])
    (fuel : Nat) (s : List Char) (hfuel : s.length ≤ fuel) :
    ∀ t ∈ pySplitGo sep fuel s, ¬ sep <:+: t := by
  induction fuel generalizing s with
  | zero =>
    have : s = [] := List.length_eq_zero.mp (Nat.le_zero.mp hfuel)
    subst this
    intro t ht
    simp [pySplitGo] at ht
    subst ht
    intro hinf
    exact hsep (List.eq_nil_of_infix_nil hinf)
  | succ n ih =>
    cases s with
    | nil =>
      intro t ht
      simp [pySplitGo] at ht
      subst ht
      intro hinf
      exact hsep (List.eq_nil_of_infix_nil hinf)
    | cons c rest =>
      have hr : rest.length ≤ n := by
        simpa using hfuel
      intro t ht
      simp only [pySplitGo] at ht
      by_cases hpre : sep.isPrefixOf (c :: rest)
      · rw [if_pos hpre] at ht
        rcases List.mem_cons.mp ht with h0 | hrest
        · subst h0
          intro hinf
          exact hsep (List.eq_nil_of_infix_nil hinf)
        · have hdrop : ((c :: rest).drop sep.length).length ≤ n := by
            have h1 : 1 ≤ sep.length := by
              cases sep with
              | nil => exact absurd rfl hsep
              | cons a l => simp
            simp only [List.length_drop, List.length_cons]
            omega
          exact ih ((c :: rest).drop sep.length) hdrop t hrest
      · rw [if_neg hpre] at ht
        obtain ⟨t0, ts0, heq, hpre0⟩ := pySplitGo_head_of_split sep n rest hr
        rw [heq] at ht
        rcases List.mem_cons.mp ht with h0 | hrest2
        · subst h0
          intro hinf
          obtain ⟨u, v, huv⟩ := hinf
          cases u with
          | nil =>
            have hsp : sep <+: c :: t0 := ⟨v, by simpa using huv⟩
            have hsp2 : sep <+: c :: rest := by
              obtain ⟨w, hw⟩ := hpre0
              exact hsp.trans ⟨w, by simp [← hw]⟩
            exact hpre (List.isPrefixOf_iff_prefix.mpr hsp2)
          | cons d u' =>
            have : sep <:+: t0 := by
              refine ⟨u', v, ?_⟩
              have := huv
              simp only [List.cons_append] at this
              exact (List.cons.injEq _ _ _ _).mp this |>.2
            exact ih rest hr t0 (by rw [heq]; exact List.mem_cons_self _ _) this
        · exact ih rest hr t (by rw [heq]; exact List.mem_cons_of_mem _ hrest2)

theorem pySplitGo_of_not_infix (sep : List Char) (fuel : Nat)
    (t : List Char) (hfuel : t.length ≤ fuel) (hni : ¬ sep <:+: t) :
    pySplitGo sep fuel t = [t] := by
  induction fuel generalizing t with
  | zero =>
    have : t = [] := List.length_eq_zero.mp (Nat.le_zero.mp hfuel)
    subst this
    simp [pySplitGo]
  | succ n ih =>
    cases t with
    | nil => simp [pySplitGo]
    | cons c rest =>
      have hr : rest.length ≤ n := by simpa using hfuel
      have hpre : ¬ sep.isPrefixOf (c :: rest) := by
        intro h
        exact hni ((List.isPrefixOf_iff_prefix.mp h).isInfix)
      have hnir : ¬ sep <:+: rest := fun h => hni (List.infix_cons h)
      simp only [pySplitGo, if_neg hpre, ih rest hr hnir]

theorem getLastD_map_default {α β : Type} (f : α → β) (l : List α)
    (d' : α) : (l.map f).getLastD (f d') = f (l.getLastD d') := by
  induction l generalizing d' with
  | nil => rfl
  | cons x xs ih =>
    simp only [List.map_cons, List.getLastD_cons]
    exact ih x

theorem getLastD_mem_cons {α : Type} (l : List α) (d : α) :
    l.getLastD d ∈ d :: l := by
  induction l generalizing d with
  | nil => simp
  | cons x xs ih =>
    simp only [List.getLastD_cons]
    exact List.mem_cons_of_mem d (ih x)

theorem getLastD_mem_of_ne_nil {α : Type} (l : List α) (h : l ≠ []) (d : α) :
    l.getLastD d ∈ l := by
  cases l with
  | nil => exact absurd rfl h
  | cons x xs =>
    simp only [List.getLastD_cons]
    exact getLastD_mem_cons xs x

/-- Idempotence of `prediction.split(rethink_token)[-1]`: applying the
strip twice equals applying it once (the last chunk of a split contains
no occurrence of the separator). -/
theorem py_split_last_idem (sep s : String) :
    py_split_last sep (py_split_last sep s) = py_split_last sep s := by
  cases hsep : sep.data with
  | nil => simp [py_split_last, py_split, hsep]
  | cons c cs =>
    have hne := pySplitGo_ne_nil (c :: cs) s.data.length s.data
    have h1 : py_split_last sep s
        = ⟨(pySplitGo (c :: cs) s.data.length s.data).getLastD []⟩ := by
      simp only [py_split_last, py_split, hsep]
      exact getLastD_map_default (fun l => (⟨l⟩ : String)) _ []
    set L := (pySplitGo (c :: cs) s.data.length s.data).getLastD [] with hL
    have hmem : L ∈ pySplitGo (c :: cs) s.data.length s.data :=
      getLastD_mem_of_ne_nil _ hne []
    have hni : ¬ (c :: cs) <:+: L :=
      pySplitGo_chunk_not_infix (c :: cs) (by simp) s.data.length s.data
        le_rfl L hmem
    have h2 : pySplitGo (c :: cs) L.length L = [L] :=
      pySplitGo_of_not_infix (c :: cs) L.length L le_rfl hni
    rw [h1]
    simp [py_split_last, py_split, hsep, h2]

/-! ### make_dataset: shared elimination -/

theorem make_dataset_ok_elim (ds : MDataset) (qk ak pk : String)
    (fn : String → List Message) (iv ug : Bool) (tok : String)
    (pairs : List PrefPair)
    (h : make_dataset ds qk ak pk fn iv ug tok = .ok pairs) :
    pairs = ds.rows.map (policy_pair fn iv tok)
      ++ (if ug then ds.rows.map (gt_pair fn iv tok) else []) := by
  simp only [make_dataset] at h
  split_ifs at h <;> simp_all

/-- C1 counterexample: on a record whose prediction is `"a!b"` with marker
`"!"`, the emitted pair's prediction is `"b"` — the text *after the last*
marker occurrence — not `"a"`, the text preceding the first occurrence that
the claim states. -/
theorem make_dataset_first_occurrence_counterexample :
    (make_dataset
        ⟨["question", "answer", "prediction", "is_correct"],
         [⟨"q", "g", "a!b", true⟩]⟩
        "question" "answer" "prediction" (fun _ => []) false false "!").map
      (fun l => l.map PrefPair.prediction) = Except.ok ["b"] ∧
    ("b" : String) ≠ "a" := by
  constructor
  · rfl
  · decide

/-- C1 (amended): for every record processed by `make_dataset`, the
prediction used for pair construction (and stored under the prediction key
of the emitted pair) equals the text *following the last* occurrence of the
rethink marker — everything up to and including the last marker occurrence
is stripped — and re-processing an already-processed record yields the same
stripped prediction (idempotence, no marker leakage). -/
theorem make_dataset_strips_after_last_marker (ds : MDataset)
    (qk ak pk : String) (fn : String → List Message) (iv ug : Bool)
    (tok : String) (pairs : List PrefPair)
    (h : make_dataset ds qk ak pk fn iv ug tok = .ok pairs)
    (i : Nat) (r : ScoredRecord) (hr : ds.rows[i]? = some r) :
    ∃ pr, pairs[i]? = some pr ∧
      pr.prediction = py_split_last tok r.prediction ∧
      py_split_last tok (py_split_last tok r.prediction)
        = py_split_last tok r.prediction := by
  have hp := make_dataset_ok_elim ds qk ak pk fn iv ug tok pairs h
  subst hp
  have hi : i < ds.rows.length := by
    have := List.getElem?_eq_some.mp hr
    exact this.1
  refine ⟨policy_pair fn iv tok r, ?_, rfl, py_split_last_idem tok r.prediction⟩
  rw [List.getElem?_append_left (by simpa using hi), List.getElem?_map, hr]
  rfl

theorem make_dataset_strips_after_last_marker_witness :
    ∃ pr,
      (([⟨"q", "g", "x!y!z", true⟩] : List ScoredRecord).map
          (policy_pair (fun _ => []) false "!")
        ++ (if false then
              ([⟨"q", "g", "x!y!z", true⟩] : List ScoredRecord).map
                (gt_pair (fun _ => []) false "!")
            else []))[0]? = some pr ∧
      pr.prediction = py_split_last "!" "x!y!z" ∧
      py_split_last "!" (py_split_last "!" "x!y!z")
        = py_split_last "!" "x!y!z" :=
  make_dataset_strips_after_last_marker
    ⟨["question", "answer", "prediction", "is_correct"],
     [⟨"q", "g", "x!y!z", true⟩]⟩
    "question" "answer" "prediction" (fun _ => []) false false "!" _ rfl
    0 ⟨"q", "g", "x!y!z", true⟩ rfl

/-- C4: for every scored record, with `p` the stripped prediction, `g` the
ground truth and `m` the marker: `is_correct` ⇒ chosen assistant text `p`,
rejected `p + m`; `¬is_correct ∧ ¬is_verifier` ⇒ chosen `p + m + g`,
rejected `p`; `¬is_correct ∧ is_verifier` ⇒ chosen `p + m`, rejected `p`. -/
theorem make_dataset_branch_contents (ds : MDataset)
    (qk ak pk : String) (fn : String → List Message) (iv ug : Bool)
    (tok : String) (pairs : List PrefPair)
    (h : make_dataset ds qk ak pk fn iv ug tok = .ok pairs)
    (i : Nat) (r : ScoredRecord) (hr : ds.rows[i]? = some r) :
    ∃ pr, pairs[i]? = some pr ∧
      ((r.is_correct = true →
        pr.chosen.getLast? =
          some ⟨"assistant", py_split_last tok r.prediction⟩ ∧
        pr.rejected.getLast? =
          some ⟨"assistant", py_split_last tok r.prediction ++ tok⟩) ∧
      (r.is_correct = false → iv = false →
        pr.chosen.getLast? =
          some ⟨"assistant",
            py_split_last tok r.prediction ++ tok ++ r.answer⟩ ∧
        pr.rejected.getLast? =
          some ⟨"assistant", py_split_last tok r.prediction⟩) ∧
      (r.is_correct = false → iv = true →
        pr.chosen.getLast? =
          some ⟨"assistant", py_split_last tok r.prediction ++ tok⟩ ∧
        pr.rejected.getLast? =
          some ⟨"assistant", py_split_last tok r.prediction⟩)) := by
  have hp := make_dataset_ok_elim ds qk ak pk fn iv ug tok pairs h
  subst hp
  have hi : i < ds.rows.length := (List.getElem?_eq_some.mp hr).1
  refine ⟨policy_pair fn iv tok r, ?_, ?_, ?_, ?_⟩
  · rw [List.getElem?_append_left (by simpa using hi), List.getElem?_map, hr]
    rfl
  · intro hc
    simp [policy_pair, hc, List.getLast?_concat]
  · intro hc hv
    simp [policy_pair, hc, hv, List.getLast?_concat]
  · intro hc hv
    simp [policy_pair, hc, hv, List.getLast?_concat]

theorem make_dataset_branch_contents_witness :
    ∃ pr,
      (([⟨"q", "g", "p", false⟩] : List ScoredRecord).map
          (policy_pair (fun _ => []) false "!")
        ++ (if false then
              ([⟨"q", "g", "p", false⟩] : List ScoredRecord).map
                (gt_pair (fun _ => []) false "!")
            else []))[0]? = some pr ∧
      ((false = true →
        pr.chosen.getLast? = some ⟨"assistant", py_split_last "!" "p"⟩ ∧
        pr.rejected.getLast? =
          some ⟨"assistant", py_split_last "!" "p" ++ "!"⟩) ∧
      (false = false → false = false →
        pr.chosen.getLast? =
          some ⟨"assistant", py_split_last "!" "p" ++ "!" ++ "g"⟩ ∧
        pr.rejected.getLast? = some ⟨"assistant", py_split_last "!" "p"⟩) ∧
      (false = false → false = true →
        pr.chosen.getLast? =
          some ⟨"assistant", py_split_last "!" "p" ++ "!"⟩ ∧
        pr.rejected.getLast? = some ⟨"assistant", py_split_last "!" "p"⟩)) :=
  make_dataset_branch_contents
    ⟨["question", "answer", "prediction", "is_correct"],
     [⟨"q", "g", "p", false⟩]⟩
    "question" "answer" "prediction" (fun _ => []) false false "!" _ rfl
    0 ⟨"q", "g", "p", false⟩ rfl

/-- C8: every emitted pair — policy-derived or ground-truth — has chosen and
rejected equal to the prepared prompt turns for the pair's question followed
by exactly one assistant turn; they can differ only in that final assistant
turn's content. -/
theorem make_dataset_pairs_share_prompt (ds : MDataset)
    (qk ak pk : String) (fn : String → List Message) (iv ug : Bool)
    (tok : String) (pairs : List PrefPair)
    (h : make_dataset ds qk ak pk fn iv ug tok = .ok pairs) :
    ∀ pr ∈ pairs, ∃ c rj,
      pr.chosen = fn pr.question ++ [⟨"assistant", c⟩] ∧
      pr.rejected = fn pr.question ++ [⟨"assistant", rj⟩] := by
  have hp := make_dataset_ok_elim ds qk ak pk fn iv ug tok pairs h
  subst hp
  intro pr hpr
  rcases List.mem_append.mp hpr with hpol | hgt
  · obtain ⟨r, _, hr⟩ := List.mem_map.mp hpol
    subst hr
    exact ⟨_, _, rfl, rfl⟩
  · rcases ug with _ | _
    · simp at hgt
    · simp only [if_pos rfl] at hgt
      obtain ⟨r, _, hr⟩ := List.mem_map.mp hgt
      subst hr
      exact ⟨_, _, rfl, rfl⟩

theorem make_dataset_pairs_share_prompt_witness :
    ∃ c rj,
      (policy_pair (fun q => [⟨"user", q⟩]) false "!"
          ⟨"q", "g", "p!x", true⟩).chosen
        = (fun q => [⟨"user", q⟩])
            (policy_pair (fun q => [⟨"user", q⟩]) false "!"
              ⟨"q", "g", "p!x", true⟩).question ++ [⟨"assistant", c⟩] ∧
      (policy_pair (fun q => [⟨"user", q⟩]) false "!"
          ⟨"q", "g", "p!x", true⟩).rejected
        = (fun q => [⟨"user", q⟩])
            (policy_pair (fun q => [⟨"user", q⟩]) false "!"
              ⟨"q", "g", "p!x", true⟩).question ++ [⟨"assistant", rj⟩] :=
  make_dataset_pairs_share_prompt
    ⟨["question", "answer", "prediction", "is_correct"],
     [⟨"q", "g", "p!x", true⟩]⟩
    "question" "answer" "prediction" (fun q => [⟨"user", q⟩]) false true "!"
    _ rfl
    (policy_pair (fun q => [⟨"user", q⟩]) false "!" ⟨"q", "g", "p!x", true⟩)
    (List.mem_append_left _
      (List.mem_map_of_mem _ (List.mem_cons_self _ _)))

/-- C2 counterexample: a scored dataset derived from one original example
with two candidates (two records sharing question and ground truth) and
`use_gt = true` yields `4` pairs — two policy pairs plus one ground-truth
pair *per scored record* — not the `2 + 1 = 3` pairs the claim states
(one ground-truth pair per original example). -/
theorem make_dataset_gt_per_example_counterexample :
    (make_dataset
        ⟨["question", "answer", "prediction", "is_correct"],
         [⟨"q", "g", "p1", true⟩, ⟨"q", "g", "p2", false⟩]⟩
        "question" "answer" "prediction" (fun _ => []) false true "!").map
      List.length = Except.ok 4 ∧ (4 : Nat) ≠ 2 + 1 := by
  constructor
  · rfl
  · decide

/-- C2 (amended): with `use_gt = true` on a scored dataset of `N×K` records
the output is all policy-derived pairs first (in input order, one per
record, recognizable by their absent `is_gt` key) followed by exactly one
ground-truth pair *per scored record* (`N×K` of them, not `N`), in input
order, each with chosen = the ground-truth answer verbatim, rejected =
ground-truth answer + rethink marker, `is_correct = true`, `is_gt = true`. -/
theorem make_dataset_gt_block (ds : MDataset) (qk ak pk : String)
    (fn : String → List Message) (iv : Bool) (tok : String)
    (pairs : List PrefPair)
    (h : make_dataset ds qk ak pk fn iv true tok = .ok pairs) :
    pairs.length = ds.rows.length + ds.rows.length ∧
    ∀ i r, ds.rows[i]? = some r →
      (∃ pr, pairs[i]? = some pr ∧ pr.is_gt = none) ∧
      pairs[ds.rows.length + i]? = some
        { question := r.question, answer := r.answer,
          prediction := r.answer, is_correct := true, is_verifier := iv,
          is_gt := some true,
          chosen := fn r.question ++ [⟨"assistant", r.answer⟩],
          rejected := fn r.question ++ [⟨"assistant", r.answer ++ tok⟩] } := by
  have hp := make_dataset_ok_elim ds qk ak pk fn iv true tok pairs h
  subst hp
  rw [if_pos rfl]
  constructor
  · simp
  · intro i r hr
    have hi : i < ds.rows.length := (List.getElem?_eq_some.mp hr).1
    constructor
    · refine ⟨policy_pair fn iv tok r, ?_, rfl⟩
      rw [List.getElem?_append_left (by simpa using hi),
        List.getElem?_map, hr]
      rfl
    · rw [List.getElem?_append_right (by simp), List.length_map]
      have : ds.rows.length + i - ds.rows.length = i := by omega
      rw [this, List.getElem?_map, hr]
      rfl

theorem make_dataset_gt_block_witness :
    (([⟨"q", "g", "p1", true⟩, ⟨"q", "g", "p2", false⟩] :
          List ScoredRecord).map (policy_pair (fun _ => []) false "!")
        ++ (if true then
              ([⟨"q", "g", "p1", true⟩, ⟨"q", "g", "p2", false⟩] :
                  List ScoredRecord).map (gt_pair (fun _ => []) false "!")
            else [])).length = 2 + 2 ∧
    ∀ i r,
      ([⟨"q", "g", "p1", true⟩, ⟨"q", "g", "p2", false⟩] :
          List ScoredRecord)[i]? = some r →
      (∃ pr,
        (([⟨"q", "g", "p1", true⟩, ⟨"q", "g", "p2", false⟩] :
              List ScoredRecord).map (policy_pair (fun _ => []) false "!")
            ++ (if true then
                  ([⟨"q", "g", "p1", true⟩, ⟨"q", "g", "p2", false⟩] :
                      List ScoredRecord).map
                    (gt_pair (fun _ => []) false "!")
                else []))[i]? = some pr ∧ pr.is_gt = none) ∧
      (([⟨"q", "g", "p1", true⟩, ⟨"q", "g", "p2", false⟩] :
            List ScoredRecord).map (policy_pair (fun _ => []) false "!")
          ++ (if true then
                ([⟨"q", "g", "p1", true⟩, ⟨"q", "g", "p2", false⟩] :
                    List ScoredRecord).map (gt_pair (fun _ => []) false "!")
              else []))[2 + i]? = some
        { question := r.question, answer := r.answer,
          prediction := r.answer, is_correct := true, is_verifier := false,
          is_gt := some true,
          chosen := (fun _ => []) r.question ++ [⟨"assistant", r.answer⟩],
          rejected := (fun _ => []) r.question
            ++ [⟨"assistant", r.answer ++ "!"⟩] } :=
  make_dataset_gt_block
    ⟨["question", "answer", "prediction", "is_correct"],
     [⟨"q", "g", "p1", true⟩, ⟨"q", "g", "p2", false⟩]⟩
    "question" "answer" "prediction" (fun _ => []) false "!" _ rfl

/-! ### hash_params: canonical serialization -/

instance : IsTotal (String × Json) keyLe :=
  ⟨fun a b => le_total a.1 b.1⟩

instance : IsTrans (String × Json) keyLe :=
  ⟨fun _ _ _ h1 h2 => le_trans h1 h2⟩

theorem sortKvList_eq_map (l : List (String × Json)) :
    sortKvList l = l.map (fun kv => (kv.1, sortJson kv.2)) := by
  induction l with
  | nil => rfl
  | cons kv kvs ih => cases kv; simp [sortKvList, ih]

theorem insertionSort_key_eq_of_perm (l₁ l₂ : List (String × Json))
    (hp : l₁.Perm l₂) (hnd : (l₁.map Prod.fst).Nodup) :
    List.insertionSort keyLe l₁ = List.insertionSort keyLe l₂ := by
  have hnd₂ : (l₂.map Prod.fst).Nodup := ((hp.map Prod.fst).nodup_iff).mp hnd
  have hne₁ : l₁.Pairwise (fun a b => a.1 ≠ b.1) := List.pairwise_map.mp hnd
  have hne₂ : l₂.Pairwise (fun a b => a.1 ≠ b.1) := List.pairwise_map.mp hnd₂
  have hperm :
      (List.insertionSort keyLe l₁).Perm (List.insertionSort keyLe l₂) :=
    (List.perm_insertionSort keyLe l₁).trans
      (hp.trans (List.perm_insertionSort keyLe l₂).symm)
  have hne₁s : (List.insertionSort keyLe l₁).Pairwise (fun a b => a.1 ≠ b.1) :=
    ((List.perm_insertionSort keyLe l₁).pairwise_iff Ne.symm).mpr hne₁
  have hne₂s : (List.insertionSort keyLe l₂).Pairwise (fun a b => a.1 ≠ b.1) :=
    ((List.perm_insertionSort keyLe l₂).pairwise_iff Ne.symm).mpr hne₂
  haveI : IsAntisymm (String × Json)
      (fun a b => keyLe a b ∧ a.1 ≠ b.1) :=
    ⟨fun a b h1 h2 => absurd (le_antisymm h1.1 h2.1) h1.2⟩
  exact List.eq_of_perm_of_sorted hperm
    ((List.sorted_insertionSort keyLe l₁).and hne₁s)
    ((List.sorted_insertionSort keyLe l₂).and hne₂s)

/-- C7: `hash_params` digests the canonical serialization: (1) two
mappings with the same key-value content (any insertion order, keys
distinct) get the same digest; (2) the digest is the hexadecimal SHA-256
of the UTF-8 bytes of the key-sorted JSON serialization; (3) equal digests
come from equal serialized bytes or constitute a SHA-256 collision, so
differing values give differing digests up to cryptographic-hash
collision. -/
theorem hash_params_canonical :
    (∀ l₁ l₂ : List (String × Json), l₁.Perm l₂ →
      (l₁.map Prod.fst).Nodup →
      hash_params (Json.obj l₁) = hash_params (Json.obj l₂)) ∧
    (∀ j : Json,
      hash_params j = sha256_hex (utf8_encode (jsonRender (sortJson j)))) ∧
    (∀ j₁ j₂ : Json, hash_params j₁ = hash_params j₂ →
      utf8_encode (json_dumps_sorted j₁) = utf8_encode (json_dumps_sorted j₂)
      ∨ (utf8_encode (json_dumps_sorted j₁)
          ≠ utf8_encode (json_dumps_sorted j₂) ∧
         sha256_hex (utf8_encode (json_dumps_sorted j₁))
          = sha256_hex (utf8_encode (json_dumps_sorted j₂)))) := by
  refine ⟨?_, fun _ => rfl, ?_⟩
  · intro l₁ l₂ hp hnd
    have hp' : (sortKvList l₁).Perm (sortKvList l₂) := by
      rw [sortKvList_eq_map, sortKvList_eq_map]
      exact hp.map _
    have hnd' : ((sortKvList l₁).map Prod.fst).Nodup := by
      rw [sortKvList_eq_map, List.map_map]
      simpa [Function.comp] using hnd
    have hsort := insertionSort_key_eq_of_perm _ _ hp' hnd'
    unfold hash_params json_dumps_sorted sortJson
    rw [hsort]
  · intro j₁ j₂ hh
    by_cases hb : utf8_encode (json_dumps_sorted j₁)
        = utf8_encode (json_dumps_sorted j₂)
    · exact Or.inl hb
    · exact Or.inr ⟨hb, hh⟩

theorem hash_params_canonical_witness :
    hash_params (Json.obj [("a", Json.int 1), ("b", Json.bool true)])
      = hash_params (Json.obj [("b", Json.bool true), ("a", Json.int 1)]) :=
  hash_params_canonical.1
    [("a", Json.int 1), ("b", Json.bool true)]
    [("b", Json.bool true), ("a", Json.int 1)]
    (List.Perm.swap ("b", Json.bool true) ("a", Json.int 1) [])
    (by decide)

/-! ### generate_and_evaluate: shared reductions -/

theorem generate_and_evaluate_hit (cfg : GenEvalConfig) (ds : GDataset)
    (collab : Collaborators) (fs : FileSystem)
    (lines : List (Option ScoredRecord)) (records : List ScoredRecord)
    (hc : fs.cache_files (cache_path cfg ds collab) = some lines)
    (hic : cfg.ignore_cache = false)
    (hseq : sequenceOptions lines = some records) :
    generate_and_evaluate cfg ds collab fs = ⟨.ok records, fs, 0, 0⟩ := by
  simp only [generate_and_evaluate, hc, hic, hseq]

theorem generate_and_evaluate_compute (cfg : GenEvalConfig) (ds : GDataset)
    (collab : Collaborators) (fs : FileSystem)
    (hmiss : fs.cache_files (cache_path cfg ds collab) = none
      ∨ cfg.ignore_cache = true)
    (hq : cfg.question_key ∈ ds.column_names)
    (ha : cfg.answer_key ∈ ds.column_names)
    (hw : fs.write_fails = false) :
    generate_and_evaluate cfg ds collab fs =
      ⟨.ok (ge_new_dataset cfg ds collab),
       ⟨fun p => if p = cache_path cfg ds collab
            then some ((ge_new_dataset cfg ds collab).map some)
            else fs.cache_files p,
        fs.write_fails⟩,
       1, (ge_zipped cfg ds collab).length⟩ := by
  rcases hmiss with hc | hic
  · cases hb : cfg.ignore_cache <;>
      simp only [generate_and_evaluate, hc, hb, if_neg (not_not_intro hq),
        if_neg (not_not_intro ha), hw, if_neg Bool.false_ne_true]
  · cases hc : fs.cache_files (cache_path cfg ds collab) <;>
      simp only [generate_and_evaluate, hc, hic, if_neg (not_not_intro hq),
        if_neg (not_not_intro ha), hw, if_neg Bool.false_ne_true]

theorem sequenceOptions_map_some (l : List ScoredRecord) :
    sequenceOptions (l.map some) = some l := by
  induction l with
  | nil => rfl
  | cons x xs ih => simp [sequenceOptions, ih]

/-- C3 counterexample: with a cache artifact present at the configuration's
fingerprint path and `ignore_cache = false`, a dataset lacking the
configured question column does *not* fail — the cached records are
returned and the column check is never reached. -/
theorem generate_and_evaluate_cache_skips_validation_counterexample :
    (generate_and_evaluate
        ⟨"m", 1024, "0.7", 10, "0.9", -1, 42,
         "question", "answer", "prediction", false⟩
        ⟨[("answer", ["a"])]⟩
        ⟨"evsrc", fun _ _ => [], "prepsrc", fun _ => [], fun _ => []⟩
        ⟨fun p =>
          if p = cache_path
              ⟨"m", 1024, "0.7", 10, "0.9", -1, 42,
               "question", "answer", "prediction", false⟩
              ⟨[("answer", ["a"])]⟩
              ⟨"evsrc", fun _ _ => [], "prepsrc", fun _ => [], fun _ => []⟩
          then some [some ⟨"q", "g", "p", true⟩] else none,
         false⟩).result = .ok [⟨"q", "g", "p", true⟩] ∧
    "question" ∉ GDataset.column_names ⟨[("answer", ["a"])]⟩ := by
  constructor
  · rw [generate_and_evaluate_hit _ _ _ _ [some ⟨"q", "g", "p", true⟩]
      [⟨"q", "g", "p", true⟩] (by simp) rfl rfl]
  · decide

/-- C3 (amended): when the cache is not consulted (no artifact at the
fingerprint path, or `ignore_cache` is true), a dataset lacking the
configured question or answer column fails with a ValueError naming the
missing column before any collaborator is invoked; when a cache artifact
exists and `ignore_cache` is false, the lookup short-circuits validation
and the cached records are returned instead. -/
theorem generate_and_evaluate_validates_on_miss (cfg : GenEvalConfig)
    (ds : GDataset) (collab : Collaborators) (fs : FileSystem)
    (hmiss : fs.cache_files (cache_path cfg ds collab) = none
      ∨ cfg.ignore_cache = true)
    (hcol : cfg.question_key ∉ ds.column_names
      ∨ cfg.answer_key ∉ ds.column_names) :
    ∃ k, (k = cfg.question_key ∨ k = cfg.answer_key) ∧
      k ∉ ds.column_names ∧
      generate_and_evaluate cfg ds collab fs =
        ⟨.error ("Dataset must contain a '" ++ k ++ "' column."),
         fs, 0, 0⟩ := by
  by_cases hq : cfg.question_key ∈ ds.column_names
  · have hano : cfg.answer_key ∉ ds.column_names := by
      rcases hcol with h | h
      · exact absurd hq h
      · exact h
    refine ⟨cfg.answer_key, Or.inr rfl, hano, ?_⟩
    rcases hmiss with hc | hic
    · cases hb : cfg.ignore_cache <;>
        simp only [generate_and_evaluate, hc, hb,
          if_neg (not_not_intro hq), if_pos hano]
    · cases hc : fs.cache_files (cache_path cfg ds collab) <;>
        simp only [generate_and_evaluate, hc, hic,
          if_neg (not_not_intro hq), if_pos hano]
  · refine ⟨cfg.question_key, Or.inl rfl, hq, ?_⟩
    rcases hmiss with hc | hic
    · cases hb : cfg.ignore_cache <;>
        simp only [generate_and_evaluate, hc, hb, if_pos hq]
    · cases hc : fs.cache_files (cache_path cfg ds collab) <;>
        simp only [generate_and_evaluate, hc, hic, if_pos hq]

theorem generate_and_evaluate_validates_on_miss_witness :
    ∃ k,
      (k = "question" ∨ k = "answer") ∧
      k ∉ GDataset.column_names ⟨[("answer", ["a"])]⟩ ∧
      generate_and_evaluate
          ⟨"m", 1024, "0.7", 10, "0.9", -1, 42,
           "question", "answer", "prediction", false⟩
          ⟨[("answer", ["a"])]⟩
          ⟨"evsrc", fun _ _ => [], "prepsrc", fun _ => [], fun _ => []⟩
          ⟨fun _ => none, false⟩ =
        ⟨.error ("Dataset must contain a '" ++ k ++ "' column."),
         ⟨fun _ => none, false⟩, 0, 0⟩ :=
  generate_and_evaluate_validates_on_miss
    ⟨"m", 1024, "0.7", 10, "0.9", -1, 42,
     "question", "answer", "prediction", false⟩
    ⟨[("answer", ["a"])]⟩
    ⟨"evsrc", fun _ _ => [], "prepsrc", fun _ => [], fun _ => []⟩
    ⟨fun _ => none, false⟩ (Or.inl rfl) (Or.inl (by decide))

/-- C5: the cache contract.  (1) When an artifact exists at the
fingerprint path, `ignore_cache` is false and every line deserializes, the
deserialized records are returned verbatim with no generator or evaluator
invocation and the filesystem untouched; (2) `ignore_cache = true` always
invokes the generator (on a validated dataset) regardless of any artifact;
(3) starting from a cold cache, two calls with identical configuration
return the same dataset and the second call performs no generation and no
evaluation. -/
theorem generate_and_evaluate_cache_contract :
    (∀ (cfg : GenEvalConfig) (ds : GDataset) (collab : Collaborators)
        (fs : FileSystem) (lines : List (Option ScoredRecord))
        (records : List ScoredRecord),
      fs.cache_files (cache_path cfg ds collab) = some lines →
      cfg.ignore_cache = false →
      sequenceOptions lines = some records →
      generate_and_evaluate cfg ds collab fs = ⟨.ok records, fs, 0, 0⟩) ∧
    (∀ (cfg : GenEvalConfig) (ds : GDataset) (collab : Collaborators)
        (fs : FileSystem),
      cfg.ignore_cache = true →
      cfg.question_key ∈ ds.column_names →
      cfg.answer_key ∈ ds.column_names →
      (generate_and_evaluate cfg ds collab fs).generator_calls = 1) ∧
    (∀ (cfg : GenEvalConfig) (ds : GDataset) (collab : Collaborators)
        (fs : FileSystem),
      cfg.ignore_cache = false →
      fs.cache_files (cache_path cfg ds collab) = none →
      fs.write_fails = false →
      cfg.question_key ∈ ds.column_names →
      cfg.answer_key ∈ ds.column_names →
      (generate_and_evaluate cfg ds collab fs).result
          = .ok (ge_new_dataset cfg ds collab) ∧
      (generate_and_evaluate cfg ds collab
          (generate_and_evaluate cfg ds collab fs).fs).result
          = .ok (ge_new_dataset cfg ds collab) ∧
      (generate_and_evaluate cfg ds collab
          (generate_and_evaluate cfg ds collab fs).fs).generator_calls = 0 ∧
      (generate_and_evaluate cfg ds collab
          (generate_and_evaluate cfg ds collab fs).fs).evaluator_calls = 0) := by
  refine ⟨generate_and_evaluate_hit, ?_, ?_⟩
  · intro cfg ds collab fs hic hq ha
    cases hw : fs.write_fails
    · rw [generate_and_evaluate_compute cfg ds collab fs (Or.inr hic) hq ha hw]
    · cases hc : fs.cache_files (cache_path cfg ds collab) <;>
        simp [generate_and_evaluate, hc, hic,
          if_neg (not_not_intro hq), if_neg (not_not_intro ha), hw]
  · intro cfg ds collab fs hic hc hw hq ha
    have h1 := generate_and_evaluate_compute cfg ds collab fs
      (Or.inl hc) hq ha hw
    have hfs2 : (generate_and_evaluate cfg ds collab fs).fs.cache_files
        (cache_path cfg ds collab)
        = some ((ge_new_dataset cfg ds collab).map some) := by
      rw [h1]
      simp
    have h2 := generate_and_evaluate_hit cfg ds collab
      (generate_and_evaluate cfg ds collab fs).fs
      ((ge_new_dataset cfg ds collab).map some)
      (ge_new_dataset cfg ds collab) hfs2 hic
      (sequenceOptions_map_some _)
    refine ⟨by rw [h1], by rw [h2], by rw [h2], by rw [h2]⟩

theorem generate_and_evaluate_cache_contract_witness :
    generate_and_evaluate
        ⟨"m", 1024, "0.7", 10, "0.9", -1, 42,
         "question", "answer", "prediction", false⟩
        ⟨[("question", ["q"]), ("answer", ["a"])]⟩
        ⟨"evsrc", fun _ ps => ps.map (fun _ => true), "prepsrc",
         fun _ => [], fun _ => [["p"]]⟩
        ⟨fun p =>
          if p = cache_path
              ⟨"m", 1024, "0.7", 10, "0.9", -1, 42,
               "question", "answer", "prediction", false⟩
              ⟨[("question", ["q"]), ("answer", ["a"])]⟩
              ⟨"evsrc", fun _ ps => ps.map (fun _ => true), "prepsrc",
               fun _ => [], fun _ => [["p"]]⟩
          then some [some ⟨"q", "a", "p", true⟩] else none,
         false⟩ =
      ⟨.ok [⟨"q", "a", "p", true⟩],
       ⟨fun p =>
          if p = cache_path
              ⟨"m", 1024, "0.7", 10, "0.9", -1, 42,
               "question", "answer", "prediction", false⟩
              ⟨[("question", ["q"]), ("answer", ["a"])]⟩
              ⟨"evsrc", fun _ ps => ps.map (fun _ => true), "prepsrc",
               fun _ => [], fun _ => [["p"]]⟩
          then some [some ⟨"q", "a", "p", true⟩] else none,
        false⟩, 0, 0⟩ :=
  generate_and_evaluate_cache_contract.1
    ⟨"m", 1024, "0.7", 10, "0.9", -1, 42,
     "question", "answer", "prediction", false⟩
    ⟨[("question", ["q"]), ("answer", ["a"])]⟩
    ⟨"evsrc", fun _ ps => ps.map (fun _ => true), "prepsrc",
     fun _ => [], fun _ => [["p"]]⟩
    _ [some ⟨"q", "a", "p", true⟩] [⟨"q", "a", "p", true⟩]
    (by simp) rfl rfl

/-- C9 counterexample: with a malformed line in the cache artifact at the
fingerprint path, `generate_and_evaluate` raises the deserialization error
and performs no recomputation (the generator is never invoked), instead of
treating the artifact as a cache miss. -/
theorem generate_and_evaluate_malformed_cache_counterexample :
    (generate_and_evaluate
        ⟨"m", 1024, "0.7", 10, "0.9", -1, 42,
         "question", "answer", "prediction", false⟩
        ⟨[("question", ["q"]), ("answer", ["a"])]⟩
        ⟨"evsrc", fun _ ps => ps.map (fun _ => true), "prepsrc",
         fun _ => [], fun _ => [["p"]]⟩
        ⟨fun p =>
          if p = cache_path
              ⟨"m", 1024, "0.7", 10, "0.9", -1, 42,
               "question", "answer", "prediction", false⟩
              ⟨[("question", ["q"]), ("answer", ["a"])]⟩
              ⟨"evsrc", fun _ ps => ps.map (fun _ => true), "prepsrc",
               fun _ => [], fun _ => [["p"]]⟩
          then some [none] else none,
         false⟩).result = .error "json.decoder.JSONDecodeError" ∧
    (generate_and_evaluate
        ⟨"m", 1024, "0.7", 10, "0.9", -1, 42,
         "question", "answer", "prediction", false⟩
        ⟨[("question", ["q"]), ("answer", ["a"])]⟩
        ⟨"evsrc", fun _ ps => ps.map (fun _ => true), "prepsrc",
         fun _ => [], fun _ => [["p"]]⟩
        ⟨fun p =>
          if p = cache_path
              ⟨"m", 1024, "0.7", 10, "0.9", -1, 42,
               "question", "answer", "prediction", false⟩
              ⟨[("question", ["q"]), ("answer", ["a"])]⟩
              ⟨"evsrc", fun _ ps => ps.map (fun _ => true), "prepsrc",
               fun _ => [], fun _ => [["p"]]⟩
          then some [none] else none,
         false⟩).generator_calls = 0 := by
  constructor <;>
    simp [generate_and_evaluate, sequenceOptions]

/-- C9 (amended): cache-layer failures are not handled.  A cache artifact
with a line that fails to deserialize makes `generate_and_evaluate` raise
the deserialization error — no recomputation, no collaborator invocation —
and a failure while opening the cache file for writing propagates as well:
the in-memory dataset is not returned (the generator was already invoked)
and the cache stays cold for that fingerprint. -/
theorem generate_and_evaluate_cache_errors_propagate :
    (∀ (cfg : GenEvalConfig) (ds : GDataset) (collab : Collaborators)
        (fs : FileSystem) (lines : List (Option ScoredRecord)),
      fs.cache_files (cache_path cfg ds collab) = some lines →
      cfg.ignore_cache = false →
      sequenceOptions lines = none →
      generate_and_evaluate cfg ds collab fs =
        ⟨.error "json.decoder.JSONDecodeError", fs, 0, 0⟩) ∧
    (∀ (cfg : GenEvalConfig) (ds : GDataset) (collab : Collaborators)
        (fs : FileSystem),
      (fs.cache_files (cache_path cfg ds collab) = none
        ∨ cfg.ignore_cache = true) →
      cfg.question_key ∈ ds.column_names →
      cfg.answer_key ∈ ds.column_names →
      fs.write_fails = true →
      generate_and_evaluate cfg ds collab fs =
        ⟨.error "OSError", fs, 1, (ge_zipped cfg ds collab).length⟩) := by
  constructor
  · intro cfg ds collab fs lines hc hic hseq
    simp only [generate_and_evaluate, hc, hic, hseq]
  · intro cfg ds collab fs hmiss hq ha hw
    rcases hmiss with hc | hic
    · cases hb : cfg.ignore_cache <;>
        simp [generate_and_evaluate, hc, hb,
          if_neg (not_not_intro hq), if_neg (not_not_intro ha), hw]
    · cases hc : fs.cache_files (cache_path cfg ds collab) <;>
        simp [generate_and_evaluate, hc, hic,
          if_neg (not_not_intro hq), if_neg (not_not_intro ha), hw]

theorem generate_and_evaluate_cache_errors_propagate_witness :
    generate_and_evaluate
        ⟨"m", 1024, "0.7", 10, "0.9", -1, 42,
         "question", "answer", "prediction", false⟩
        ⟨[("question", ["q"]), ("answer", ["a"])]⟩
        ⟨"evsrc", fun _ ps => ps.map (fun _ => true), "prepsrc",
         fun _ => [], fun _ => [["p"]]⟩
        ⟨fun _ => none, true⟩ =
      ⟨.error "OSError", ⟨fun _ => none, true⟩, 1,
       (ge_zipped
          ⟨"m", 1024, "0.7", 10, "0.9", -1, 42,
           "question", "answer", "prediction", false⟩
          ⟨[("question", ["q"]), ("answer", ["a"])]⟩
          ⟨"evsrc", fun _ ps => ps.map (fun _ => true), "prepsrc",
           fun _ => [], fun _ => [["p"]]⟩).length⟩ :=
  generate_and_evaluate_cache_errors_propagate.2
    ⟨"m", 1024, "0.7", 10, "0.9", -1, 42,
     "question", "answer", "prediction", false⟩
    ⟨[("question", ["q"]), ("answer", ["a"])]⟩
    ⟨"evsrc", fun _ ps => ps.map (fun _ => true), "prepsrc",
     fun _ => [], fun _ => [["p"]]⟩
    ⟨fun _ => none, true⟩ (Or.inl rfl) (by decide) (by decide) rfl

theorem flatMap_length_sum {α β : Type} (l : List α) (f : α → List β) :
    (l.flatMap f).length = (l.map fun x => (f x).length).sum := by
  induction l <;> simp_all

theorem flatMap_length_uniform {α β : Type} (l : List α) (f : α → List β)
    (K : Nat) (hK : ∀ x ∈ l, (f x).length = K) :
    (l.flatMap f).length = l.length * K := by
  induction l with
  | nil => simp
  | cons x xs ih =>
    simp only [List.flatMap_cons, List.length_append, List.length_cons]
    rw [hK x (List.mem_cons_self x xs),
      ih (fun y hy => hK y (List.mem_cons_of_mem x hy))]
    ring

theorem flatMap_getElem_uniform {α β : Type} (l : List α) (f : α → List β)
    (K : Nat) (hK : ∀ x ∈ l, (f x).length = K) (i j : Nat) (hj : j < K)
    (x : α) (hx : l[i]? = some x) :
    (l.flatMap f)[i * K + j]? = (f x)[j]? := by
  induction l generalizing i with
  | nil => simp at hx
  | cons y ys ih =>
    cases i with
    | zero =>
      simp only [List.getElem?_cons_zero, Option.some.injEq] at hx
      subst hx
      simp only [List.flatMap_cons, Nat.zero_mul, Nat.zero_add]
      exact List.getElem?_append_left
        (by rw [hK y (List.mem_cons_self y ys)]; exact hj)
    | succ n =>
      simp only [List.getElem?_cons_succ] at hx
      have hy := hK y (List.mem_cons_self y ys)
      have heq : (n + 1) * K + j = (f y).length + (n * K + j) := by
        rw [hy]; ring
      simp only [List.flatMap_cons]
      rw [List.getElem?_append_right (by omega), heq,
        Nat.add_sub_cancel_left]
      exact ih (fun z hz => hK z (List.mem_cons_of_mem y hz)) n hx

theorem getElem?_zip_of {α β : Type} (l₁ : List α) (l₂ : List β) (i : Nat)
    (a : α) (b : β) (h₁ : l₁[i]? = some a) (h₂ : l₂[i]? = some b) :
    (l₁.zip l₂)[i]? = some (a, b) := by
  induction l₁ generalizing l₂ i with
  | nil => simp at h₁
  | cons x xs ih =>
    cases l₂ with
    | nil => simp at h₂
    | cons y ys =>
      cases i with
      | zero =>
        simp only [List.getElem?_cons_zero, Option.some.injEq] at h₁ h₂
        simp [List.zip_cons_cons, h₁, h₂]
      | succ n =>
        simp only [List.getElem?_cons_succ] at h₁ h₂
        simpa [List.zip_cons_cons] using ih ys n h₁ h₂

/-- C6: on a cache miss over a validated dataset of `N` examples, with the
generator returning exactly `K` candidates per example and the evaluator
returning a score list of length `K` per call, `generate_and_evaluate`
returns exactly `N×K` scored records, ordered by example then by candidate,
where the record at position `i*K + j` carries example `i`'s question and
ground truth, candidate `j`'s prediction, and `is_correct` equal to the
evaluator's score for that candidate. -/
theorem generate_and_evaluate_flattening (cfg : GenEvalConfig)
    (ds : GDataset) (collab : Collaborators) (fs : FileSystem)
    (hmiss : fs.cache_files (cache_path cfg ds collab) = none
      ∨ cfg.ignore_cache = true)
    (hq : cfg.question_key ∈ ds.column_names)
    (ha : cfg.answer_key ∈ ds.column_names)
    (hw : fs.write_fails = false)
    (hsel : ¬ cfg.num_examples > 0)
    (N K : Nat)
    (hqlen : (ds.col cfg.question_key).length = N)
    (halen : (ds.col cfg.answer_key).length = N)
    (hplen : (ge_predictions cfg ds collab).length = N)
    (hK : ∀ p ∈ ge_predictions cfg ds collab, p.length = K)
    (hE : ∀ qgp ∈ ge_zipped cfg ds collab,
      (ge_score_list collab qgp.2.1 qgp.2.2).length = K) :
    (generate_and_evaluate cfg ds collab fs).result
      = .ok (ge_new_dataset cfg ds collab) ∧
    (ge_new_dataset cfg ds collab).length = N * K ∧
    ∀ i j, i < N → j < K →
      ∃ q g pset p b,
        (ds.col cfg.question_key)[i]? = some q ∧
        (ds.col cfg.answer_key)[i]? = some g ∧
        (ge_predictions cfg ds collab)[i]? = some pset ∧
        pset[j]? = some p ∧
        (ge_score_list collab g pset)[j]? = some b ∧
        (ge_new_dataset cfg ds collab)[i * K + j]? = some ⟨q, g, p, b⟩ := by
  have heff : ge_effective_dataset cfg ds = ds := if_neg hsel
  have hKchunks : ∀ x ∈ ge_zipped cfg ds collab,
      ((x.2.2.zip (ge_score_list collab x.2.1 x.2.2)).map
        (fun pc => (⟨x.1, x.2.1, pc.1, pc.2⟩ : ScoredRecord))).length = K := by
    intro x hx
    obtain ⟨q', g', pset'⟩ := x
    have hsc := hE (q', g', pset') hx
    simp only [ge_zipped, heff] at hx
    have hmem : pset' ∈ ge_predictions cfg ds collab :=
      (List.of_mem_zip ((List.of_mem_zip hx).2)).2
    simp only [List.length_map, List.length_zip, hK pset' hmem]
    simp only at hsc
    rw [hsc, Nat.min_self]
  have hzlen : (ge_zipped cfg ds collab).length = N := by
    simp [ge_zipped, heff, List.length_zip, hqlen, halen, hplen]
  refine ⟨?_, ?_, ?_⟩
  · rw [generate_and_evaluate_compute cfg ds collab fs hmiss hq ha hw]
  · unfold ge_new_dataset
    rw [flatMap_length_uniform _ _ K hKchunks, hzlen]
  · intro i j hi hj
    have hiq : i < (ds.col cfg.question_key).length := by omega
    have hia : i < (ds.col cfg.answer_key).length := by omega
    have hip : i < (ge_predictions cfg ds collab).length := by omega
    obtain ⟨q, hqi⟩ : ∃ q, (ds.col cfg.question_key)[i]? = some q :=
      ⟨_, List.getElem?_eq_getElem hiq⟩
    obtain ⟨g, hgi⟩ : ∃ g, (ds.col cfg.answer_key)[i]? = some g :=
      ⟨_, List.getElem?_eq_getElem hia⟩
    obtain ⟨pset, hpi⟩ : ∃ p, (ge_predictions cfg ds collab)[i]? = some p :=
      ⟨_, List.getElem?_eq_getElem hip⟩
    have hzip : (ge_zipped cfg ds collab)[i]? = some (q, g, pset) := by
      simp only [ge_zipped, heff]
      exact getElem?_zip_of _ _ i q (g, pset) hqi
        (getElem?_zip_of _ _ i g pset hgi hpi)
    have hxmem : (q, g, pset) ∈ ge_zipped cfg ds collab := by
      obtain ⟨hlen, heq⟩ := List.getElem?_eq_some.mp hzip
      exact heq ▸ List.getElem_mem hlen
    have hpmem : pset ∈ ge_predictions cfg ds collab := by
      have hx := hxmem
      simp only [ge_zipped, heff] at hx
      exact (List.of_mem_zip ((List.of_mem_zip hx).2)).2
    have hpl : pset.length = K := hK pset hpmem
    have hsl : (ge_score_list collab g pset).length = K := by
      simpa using hE (q, g, pset) hxmem
    obtain ⟨p, hpj⟩ : ∃ p, pset[j]? = some p :=
      ⟨_, List.getElem?_eq_getElem (by omega)⟩
    obtain ⟨b, hbj⟩ : ∃ b, (ge_score_list collab g pset)[j]? = some b :=
      ⟨_, List.getElem?_eq_getElem (by omega)⟩
    refine ⟨q, g, pset, p, b, hqi, hgi, hpi, hpj, hbj, ?_⟩
    unfold ge_new_dataset
    rw [flatMap_getElem_uniform _ _ K hKchunks i j hj (q, g, pset) hzip]
    simp [List.getElem?_map, getElem?_zip_of pset
      (ge_score_list collab g pset) j p b hpj hbj]

theorem generate_and_evaluate_flattening_witness :
    (generate_and_evaluate
        ⟨"m", 1024, "0.7", 3, "0.9", -1, 42,
         "question", "answer", "prediction", false⟩
        ⟨[("question", ["q1", "q2"]), ("answer", ["a1", "a2"])]⟩
        ⟨"evsrc", fun _ ps => ps.map (fun _ => true), "prepsrc",
         fun _ => [], fun _ => [["p1", "p2", "p3"], ["p4", "p5", "p6"]]⟩
        ⟨fun _ => none, false⟩).result
      = .ok (ge_new_dataset
        ⟨"m", 1024, "0.7", 3, "0.9", -1, 42,
         "question", "answer", "prediction", false⟩
        ⟨[("question", ["q1", "q2"]), ("answer", ["a1", "a2"])]⟩
        ⟨"evsrc", fun _ ps => ps.map (fun _ => true), "prepsrc",
         fun _ => [], fun _ => [["p1", "p2", "p3"], ["p4", "p5", "p6"]]⟩) ∧
    (ge_new_dataset
        ⟨"m", 1024, "0.7", 3, "0.9", -1, 42,
         "question", "answer", "prediction", false⟩
        ⟨[("question", ["q1", "q2"]), ("answer", ["a1", "a2"])]⟩
        ⟨"evsrc", fun _ ps => ps.map (fun _ => true), "prepsrc",
         fun _ => [], fun _ => [["p1", "p2", "p3"], ["p4", "p5", "p6"]]⟩).length
      = 2 * 3 ∧
    ∀ i j, i < 2 → j < 3 →
      ∃ q g pset p b,
        (GDataset.col
          ⟨[("question", ["q1", "q2"]), ("answer", ["a1", "a2"])]⟩
          "question")[i]? = some q ∧
        (GDataset.col
          ⟨[("question", ["q1", "q2"]), ("answer", ["a1", "a2"])]⟩
          "answer")[i]? = some g ∧
        (ge_predictions
          ⟨"m", 1024, "0.7", 3, "0.9", -1, 42,
           "question", "answer", "prediction", false⟩
          ⟨[("question", ["q1", "q2"]), ("answer", ["a1", "a2"])]⟩
          ⟨"evsrc", fun _ ps => ps.map (fun _ => true), "prepsrc",
           fun _ => [], fun _ => [["p1", "p2", "p3"], ["p4", "p5", "p6"]]⟩)[i]?
          = some pset ∧
        pset[j]? = some p ∧
        (ge_score_list
          ⟨"evsrc", fun _ ps => ps.map (fun _ => true), "prepsrc",
           fun _ => [], fun _ => [["p1", "p2", "p3"], ["p4", "p5", "p6"]]⟩
          g pset)[j]? = some b ∧
        (ge_new_dataset
          ⟨"m", 1024, "0.7", 3, "0.9", -1, 42,
           "question", "answer", "prediction", false⟩
          ⟨[("question", ["q1", "q2"]), ("answer", ["a1", "a2"])]⟩
          ⟨"evsrc", fun _ ps => ps.map (fun _ => true), "prepsrc",
           fun _ => [], fun _ => [["p1", "p2", "p3"], ["p4", "p5", "p6"]]⟩)[
            i * 3 + j]? = some ⟨q, g, p, b⟩ :=
  generate_and_evaluate_flattening
    ⟨"m", 1024, "0.7", 3, "0.9", -1, 42,
     "question", "answer", "prediction", false⟩
    ⟨[("question", ["q1", "q2"]), ("answer", ["a1", "a2"])]⟩
    ⟨"evsrc", fun _ ps => ps.map (fun _ => true), "prepsrc",
     fun _ => [], fun _ => [["p1", "p2", "p3"], ["p4", "p5", "p6"]]⟩
    ⟨fun _ => none, false⟩
    (Or.inl rfl) (by decide) (by decide) rfl (by decide) 2 3
    rfl rfl rfl (by decide) (by decide)

/-- C10: length mismatches between collaborator outputs and expectations
are silently absorbed by `zip` truncation, never raised: on a cache miss
over a validated dataset the call still returns `ok`; the number of
examples processed is the minimum of the question-column, answer-column and
generator-output lengths (extra examples produce no records); and each
processed example contributes `min(#candidates, #scores)` records. -/
theorem generate_and_evaluate_zip_truncation (cfg : GenEvalConfig)
    (ds : GDataset) (collab : Collaborators) (fs : FileSystem)
    (hmiss : fs.cache_files (cache_path cfg ds collab) = none
      ∨ cfg.ignore_cache = true)
    (hq : cfg.question_key ∈ ds.column_names)
    (ha : cfg.answer_key ∈ ds.column_names)
    (hw : fs.write_fails = false) :
    (generate_and_evaluate cfg ds collab fs).result
      = .ok (ge_new_dataset cfg ds collab) ∧
    (ge_zipped cfg ds collab).length =
      min ((ge_effective_dataset cfg ds).col cfg.question_key).length
        (min ((ge_effective_dataset cfg ds).col cfg.answer_key).length
          (ge_predictions cfg ds collab).length) ∧
    (ge_new_dataset cfg ds collab).length =
      ((ge_zipped cfg ds collab).map
        (fun qgp => min qgp.2.2.length
          (ge_score_list collab qgp.2.1 qgp.2.2).length)).sum := by
  refine ⟨?_, ?_, ?_⟩
  · rw [generate_and_evaluate_compute cfg ds collab fs hmiss hq ha hw]
  · simp [ge_zipped, List.length_zip]
  · unfold ge_new_dataset
    rw [flatMap_length_sum]
    simp [List.length_zip]

theorem generate_and_evaluate_zip_truncation_witness :
    (generate_and_evaluate
        ⟨"m", 1024, "0.7", 2, "0.9", -1, 42,
         "question", "answer", "prediction", false⟩
        ⟨[("question", ["q1", "q2", "q3"]),
          ("answer", ["a1", "a2", "a3"])]⟩
        ⟨"evsrc", fun _ _ => [true], "prepsrc",
         fun _ => [], fun _ => [["p1", "p2"], ["p3"]]⟩
        ⟨fun _ => none, false⟩).result
      = .ok (ge_new_dataset
        ⟨"m", 1024, "0.7", 2, "0.9", -1, 42,
         "question", "answer", "prediction", false⟩
        ⟨[("question", ["q1", "q2", "q3"]),
          ("answer", ["a1", "a2", "a3"])]⟩
        ⟨"evsrc", fun _ _ => [true], "prepsrc",
         fun _ => [], fun _ => [["p1", "p2"], ["p3"]]⟩) ∧
    (ge_zipped
        ⟨"m", 1024, "0.7", 2, "0.9", -1, 42,
         "question", "answer", "prediction", false⟩
        ⟨[("question", ["q1", "q2", "q3"]),
          ("answer", ["a1", "a2", "a3"])]⟩
        ⟨"evsrc", fun _ _ => [true], "prepsrc",
         fun _ => [], fun _ => [["p1", "p2"], ["p3"]]⟩).length =
      min (GDataset.col
          (ge_effective_dataset
            ⟨"m", 1024, "0.7", 2, "0.9", -1, 42,
             "question", "answer", "prediction", false⟩
            ⟨[("question", ["q1", "q2", "q3"]),
              ("answer", ["a1", "a2", "a3"])]⟩) "question").length
        (min (GDataset.col
            (ge_effective_dataset
              ⟨"m", 1024, "0.7", 2, "0.9", -1, 42,
               "question", "answer", "prediction", false⟩
              ⟨[("question", ["q1", "q2", "q3"]),
                ("answer", ["a1", "a2", "a3"])]⟩) "answer").length
          (ge_predictions
            ⟨"m", 1024, "0.7", 2, "0.9", -1, 42,
             "question", "answer", "prediction", false⟩
            ⟨[("question", ["q1", "q2", "q3"]),
              ("answer", ["a1", "a2", "a3"])]⟩
            ⟨"evsrc", fun _ _ => [true], "prepsrc",
             fun _ => [], fun _ => [["p1", "p2"], ["p3"]]⟩).length) ∧
    (ge_new_dataset
        ⟨"m", 1024, "0.7", 2, "0.9", -1, 42,
         "question", "answer", "prediction", false⟩
        ⟨[("question", ["q1", "q2", "q3"]),
          ("answer", ["a1", "a2", "a3"])]⟩
        ⟨"evsrc", fun _ _ => [true], "prepsrc",
         fun _ => [], fun _ => [["p1", "p2"], ["p3"]]⟩).length =
      ((ge_zipped
          ⟨"m", 1024, "0.7", 2, "0.9", -1, 42,
           "question", "answer", "prediction", false⟩
          ⟨[("question", ["q1", "q2", "q3"]),
            ("answer", ["a1", "a2", "a3"])]⟩
          ⟨"evsrc", fun _ _ => [true], "prepsrc",
           fun _ => [], fun _ => [["p1", "p2"], ["p3"]]⟩).map
        (fun qgp => min qgp.2.2.length
          (ge_score_list
            ⟨"evsrc", fun _ _ => [true], "prepsrc",
             fun _ => [], fun _ => [["p1", "p2"], ["p3"]]⟩
            qgp.2.1 qgp.2.2).length)).sum :=
  generate_and_evaluate_zip_truncation
    ⟨"m", 1024, "0.7", 2, "0.9", -1, 42,
     "question", "answer", "prediction", false⟩
    ⟨[("question", ["q1", "q2", "q3"]), ("answer", ["a1", "a2", "a3"])]⟩
    ⟨"evsrc", fun _ _ => [true], "prepsrc",
     fun _ => [], fun _ => [["p1", "p2"], ["p3"]]⟩
    ⟨fun _ => none, false⟩
    (Or.inl rfl) (by decide) (by decide) rfl
